import Mathlib

/-!
Shallow embedding of the FITS-header validation suite
(`src/tests/test_keywords.py`, class `Test_Keywords`) and proofs about it.

Modelling conventions:
- Python floats are modelled as rationals; a FITS header value is a sum type
  over float, int, str, bool, plus the aggregated commentary cards returned
  for the special COMMENT keyword.
- A captured header is an association list from keyword to value; lookup of a
  missing keyword yields a KeyError, as in Python.
- Every logging.error call of the suite is modelled as appending a structured
  ViolationRecord; an uncaught Python exception is modelled as an abort value
  carried next to the accumulated log, stopping the remaining iterations of
  the check, exactly as an exception unwinds the Python for-loops.
- Each per-header check function returns the (possibly updated) header first,
  so that the in-place `del hdr["COMMENT"]` mutation performed by
  `test_missing_keywords` is visible to checks that run later on the same
  shared header list.
-/

/-- A typed FITS header value, as produced by the external FITS decoder.
`cards` stands for the aggregated commentary-card object that the library
returns for the COMMENT keyword (an iterable of strings). -/
inductive HVal where
  | f (q : ℚ)
  | i (n : ℤ)
  | s (st : String)
  | b (bo : Bool)
  | cards (ls : List String)
  deriving DecidableEq

/-- The Python exceptions that can escape or be caught inside the checks. -/
inductive PyErr where
  | keyError (kw : String)
  | indexError
  | assertionError
  | valueErrorWPPOS (filename : String)
  | valueErrorParse (s : String)
  | valueErrorUnpack
  | typeError (ctx : String)
  deriving DecidableEq

/-- Numeric view of a value, for Python arithmetic comparisons: ints, floats
and bools (False is 0, True is 1) are numbers; strings and cards are not. -/
def HVal.toNumQ : HVal → Option ℚ
  | .f q => some q
  | .i n => some (n : ℚ)
  | .b bo => some (if bo then 1 else 0)
  | _ => none

/-- Python equality between two header values: numeric values compare by
numeric value across types, strings compare as strings, commentary cards
compare elementwise, anything else is unequal. -/
def pyEq (a b : HVal) : Bool :=
  match a.toNumQ, b.toNumQ with
  | some x, some y => decide (x = y)
  | _, _ =>
    match a, b with
    | .s x, .s y => x == y
    | .cards x, .cards y => x == y
    | _, _ => false

/-- Rendering of a value inside a log f-string. For the string and integer
values that actually feed the diagnostics of the claims (FILENAME, CCDSERN)
this matches the Python str conversion exactly. -/
def hvalStr : HVal → String
  | .s st => st
  | .i n => toString n
  | .b bo => if bo then "True" else "False"
  | .f q => toString q
  | .cards ls => toString ls

/-- A captured image header: an ordered keyword-to-value mapping. -/
structure Header where
  entries : List (String × HVal)
  deriving DecidableEq

/-- The keyword list of a header, in order, as `hdr.keys()` returns it. -/
def Header.keys (h : Header) : List String := h.entries.map (fun p => p.1)

/-- Subscript access `hdr[kw]`: the first entry for the keyword, or a
KeyError when the keyword is absent. -/
def hdrGet (h : Header) (k : String) : Except PyErr HVal :=
  match h.entries.find? (fun p => p.1 == k) with
  | some p => .ok p.2
  | none => .error (.keyError k)

/-- Numeric value of a list of decimal digit characters. -/
def digitsVal (cs : List Char) : ℕ :=
  cs.foldl (fun a c => a * 10 + (c.toNat - 48)) 0

/-- Splitting a character list on a separator character, the str split
semantics: the empty input gives one empty piece. -/
def splitCharAux (c : Char) : List Char → List (List Char)
  | [] => [[]]
  | x :: xs =>
    let r := splitCharAux c xs
    if x == c then [] :: r
    else
      match r with
      | [] => [[x]]
      | y :: ys => (x :: y) :: ys

/-- The Python str split method on a one-character separator. -/
def splitChar (c : Char) (s : String) : List String :=
  (splitCharAux c s.toList).map (fun l => String.mk l)

/-- Unsigned decimal literal: digits with an optional decimal point, at
least one digit overall. -/
def pyFloatPos (s : String) : Option ℚ :=
  match splitChar '.' s with
  | [a] =>
    if a.length > 0 && a.toList.all Char.isDigit then
      some ((digitsVal a.toList : ℚ))
    else none
  | [a, b] =>
    if (a.length + b.length > 0) && a.toList.all Char.isDigit
        && b.toList.all Char.isDigit then
      some ((digitsVal a.toList : ℚ) + (digitsVal b.toList : ℚ) / (10 ^ b.length))
    else none
  | _ => none

/-- The Python float constructor on plain decimal literals with an optional
sign (the only shapes the reference tables use); anything else is a
ValueError, reported as none. -/
def pyFloat (s : String) : Option ℚ :=
  match s.toList with
  | '-' :: cs => (pyFloatPos (String.mk cs)).map Neg.neg
  | '+' :: cs => pyFloatPos (String.mk cs)
  | _ => pyFloatPos s

/-- Unsigned integer literal: a nonempty run of digits. -/
def pyIntPos (s : String) : Option ℤ :=
  if s.length > 0 && s.toList.all Char.isDigit then
    some ((digitsVal s.toList : ℤ))
  else none

/-- The Python int constructor on integer literals with an optional sign. -/
def pyInt (s : String) : Option ℤ :=
  match s.toList with
  | '-' :: cs => (pyIntPos (String.mk cs)).map Neg.neg
  | '+' :: cs => pyIntPos (String.mk cs)
  | _ => pyIntPos s

/-- Scalar np.allclose with the numpy defaults rtol = 1e-5, atol = 1e-8:
the difference must satisfy abs (a - b) ≤ atol + rtol * abs b. -/
def allclose (a b : ℚ) : Bool :=
  decide (|a - b| ≤ 1 / 100000000 + (1 / 100000) * |b|)

/-- Symmetric difference of two keyword sets, as Python `expected ^ received`. -/
def symmDiffSet (a b : Finset String) : Finset String := (a \ b) ∪ (b \ a)

/-- Structured payload of one logged violation, one constructor per distinct
logging.error message shape in the suite. -/
inductive Payload where
  | numMismatch (expected received : ℚ)
  | setDiff (diff : Finset String)
  | equalSets (expected received : Finset String)
  | notInstance (kw : String) (expectedType : String) (foundType : String)
  | notInInterval (kw : String) (lo : ℚ) (hi : Option ℚ) (value : ℚ)
  | notInList (kw : String) (allowed : List HVal) (value : HVal)
  | sizeExceeded (kw : String) (limit : ℕ) (actual : ℕ)
  | exceptionMsg (e : PyErr)
  deriving DecidableEq

/-- One logged violation: the test (check) name, the filename label of the
header under test, and the structured diagnostic payload. -/
structure Violation where
  test : String
  filename : String
  payload : Payload
  deriving DecidableEq

/-- The var_types mapping keys: the valid schema type names. -/
def validTypeNames : List String := ["float", "integer", "string", "boolean"]

/-- Python isinstance of a header value against the type selected by
var_types; a Python bool is also an instance of int. -/
def isInstance (v : HVal) (vtype : String) : Bool :=
  match v, vtype with
  | .i _, "integer" => true
  | .b _, "integer" => true
  | .f _, "float" => true
  | .s _, "string" => true
  | .b _, "boolean" => true
  | _, _ => false

/-- The runtime type name of a value, as type(value) prints it. -/
def pyTypeName : HVal → String
  | .f _ => "float"
  | .i _ => "int"
  | .s _ => "str"
  | .b _ => "bool"
  | .cards _ => "cards"

/-- The kws_specific_values class attribute: keywords excluded from the
interval check and submitted to the enumeration check instead. -/
def kws_specific_values : List String :=
  ["BITPIX", "INSTMODE", "SYNCMODE", "FILTER", "OBSTYPE", "ACQMODE",
   "PREAMP", "READRATE", "VSHIFT", "TRIGGER", "EMMODE", "SHUTTER",
   "TEMPST", "VCLKAMP", "CTRLINTE", "WPSEL", "CALW"]

/-- The kws_fixed_str_size class attribute: keyword and maximum length. -/
def kws_fixed_str_size : List (String × ℕ) :=
  [("PROJID", 15), ("OBJECT", 30), ("OBSERVER", 54)]

/-- One row of the header_content reference catalog
(columns Keyword; Type; Allowed values; Comment). -/
structure SchemaRow where
  keyword : String
  vtype : String
  allowedValues : String
  comment : String
  deriving DecidableEq

/-- The static method compare_numbers: log a numMismatch record unless
np.allclose holds of (expected, received). -/
def compare_numbers (expected received : ℚ) (filename tname : String) :
    List Violation :=
  if allclose expected received then []
  else [⟨tname, filename, .numMismatch expected received⟩]

/-- The static method compare_lists: turn both lists into sets and log their
symmetric difference when the sets differ. -/
def compare_lists (expected received : List String) (filename tname : String) :
    List Violation :=
  if expected.toFinset = received.toFinset then []
  else [⟨tname, filename,
          .setDiff (symmDiffSet expected.toFinset received.toFinset)⟩]

/-- The static method verify_if_different: turn both arguments into sets and
log a record when the two sets are EQUAL. -/
def verify_if_different (expected received : List String)
    (filename tname : String) : List Violation :=
  if expected.toFinset = received.toFinset then
    [⟨tname, filename, .equalSets expected.toFinset received.toFinset⟩]
  else []

/-- The static method verify_type: log when the value is not an instance of
the schema-declared type. -/
def verify_type (kw : String) (v : HVal) (vtype : String)
    (filename tname : String) : List Violation :=
  if isInstance v vtype then []
  else [⟨tname, filename, .notInstance kw vtype (pyTypeName v)⟩]

/-- Upper-bound test against a possibly unbounded maximum (none is np.inf). -/
def leMax (q : ℚ) : Option ℚ → Bool
  | none => true
  | some m => decide (q ≤ m)

/-- The static method kw_in_interval: log when the value is outside the
closed interval from lo to hi (hi = none meaning positive infinity). -/
def kw_in_interval (lo : ℚ) (hi : Option ℚ) (q : ℚ)
    (kw filename tname : String) : List Violation :=
  if decide (lo ≤ q) && leMax q hi then []
  else [⟨tname, filename, .notInInterval kw lo hi q⟩]

/-- The static method val_in_list: log when the value is not a member of the
allowed list, membership being Python equality of the elements. -/
def val_in_list (v : HVal) (allowed : List HVal)
    (kw filename tname : String) : List Violation :=
  if allowed.any (fun a => pyEq v a) then []
  else [⟨tname, filename, .notInList kw allowed v⟩]

/-- Python len of a header value: defined for strings and commentary cards,
a TypeError otherwise. -/
def pyLen : HVal → Except PyErr ℕ
  | .s st => .ok st.length
  | .cards ls => .ok ls.length
  | _ => .error (.typeError "len")

/-- Iterating a loop body that both accumulates log records and may raise:
an abort stops the remaining iterations, keeping the log so far. -/
def runSeq {α : Type} (f : α → List Violation × Option PyErr) :
    List α → List Violation × Option PyErr
  | [] => ([], none)
  | x :: xs =>
    match f x with
    | (log, some e) => (log, some e)
    | (log, none) =>
      let r := runSeq f xs
      (log ++ r.1, r.2)

/-- Iterating a per-header check over the shared header list: each step may
update its header in place; an abort stops the loop, leaving the remaining
headers untouched. -/
def runHdrs (f : Header → Header × List Violation × Option PyErr) :
    List Header → List Header × List Violation × Option PyErr
  | [] => ([], [], none)
  | h :: hs =>
    match f h with
    | (h2, log, some e) => (h2 :: hs, log, some e)
    | (h2, log, none) =>
      let r := runHdrs f hs
      (h2 :: r.1, log ++ r.2.1, r.2.2)

/-- The try/except wrapper shared by test_keywords_types and
test_kws_in_interval: a raised exception is caught and logged with the
FILENAME of the header; the except handler itself reads hdr FILENAME, so a
header with no FILENAME makes the handler raise. -/
def catchLog (h : Header) (tname : String)
    (inner : Except PyErr (List Violation)) : List Violation × Option PyErr :=
  match inner with
  | .ok log => (log, none)
  | .error e =>
    match hdrGet h "FILENAME" with
    | .error e2 => ([], some e2)
    | .ok fv => ([⟨tname, hvalStr fv, .exceptionMsg e⟩], none)

/-- The defensive pass of test_missing_keywords and test_kw_comments:
remove every COMMENT entry from the header (the del statement is guarded by
a membership test in the source, but deleting when absent is the identity). -/
def delComment (h : Header) : Header :=
  ⟨h.entries.filter (fun p => !(p.1 == "COMMENT"))⟩

/-- The check test_missing_keywords on one header: delete COMMENT in place,
then compare the keyword set of the header with the Keyword column of the
catalog via compare_lists, labelling with hdr FILENAME. -/
def test_missing_keywords_hdr (schema : List SchemaRow) (h : Header) :
    Header × List Violation × Option PyErr :=
  let h2 := delComment h
  (h2,
    match hdrGet h2 "FILENAME" with
    | .error e => ([], some e)
    | .ok fv =>
      (compare_lists (schema.map SchemaRow.keyword) h2.keys
        (hvalStr fv) "test_missing_keywords", none))

/-- Python set() of a header value, as test_comment_kw applies it to the
expected empty string and to the received COMMENT value: cards iterate into
their card strings, a string iterates into its characters, and any
non-iterable value raises a TypeError. -/
def commentElems : HVal → Except PyErr (List String)
  | .cards ls => .ok ls
  | .s st => .ok (st.toList.map (fun c => String.mk [c]))
  | _ => .error (.typeError "iter")

/-- The check test_comment_kw on one header: only when a COMMENT entry is
present, compare set of the empty string with set of the COMMENT value via
verify_if_different (which logs when the two sets are equal). -/
def test_comment_kw_hdr (h : Header) : Header × List Violation × Option PyErr :=
  (h,
    if h.keys.contains "COMMENT" then
      match hdrGet h "FILENAME" with
      | .error e => ([], some e)
      | .ok fv =>
        match hdrGet h "COMMENT" with
        | .error e => ([], some e)
        | .ok cv =>
          match commentElems cv with
          | .error e => ([], some e)
          | .ok elems =>
            (verify_if_different [] elems (hvalStr fv) "test_comment_kw", none)
    else ([], none))

/-- The check test_WPPOS on one header: both subscript accesses are
evaluated (the source combines them with a non-short-circuit bitwise and);
when INSTMODE equals POLAR and WPPOS equals 0 a ValueError naming the
FILENAME is raised; otherwise nothing is logged and nothing is raised. -/
def test_WPPOS_hdr (h : Header) : Header × List Violation × Option PyErr :=
  (h,
    match hdrGet h "INSTMODE" with
    | .error e => ([], some e)
    | .ok im =>
      match hdrGet h "WPPOS" with
      | .error e => ([], some e)
      | .ok wp =>
        if pyEq im (.s "POLAR") && pyEq wp (.i 0) then
          match hdrGet h "FILENAME" with
          | .error e => ([], some e)
          | .ok fv => ([], some (.valueErrorWPPOS (hvalStr fv)))
        else ([], none))

/-- The body of the test_keywords_types loop for one catalog row, inside its
try/except: read the value, select the type from var_types, read FILENAME
for the log label, then verify_type; any failure is caught by catchLog. -/
def test_keywords_types_row (h : Header) (row : SchemaRow) :
    List Violation × Option PyErr :=
  catchLog h "test_keywords_types"
    (match hdrGet h row.keyword with
     | .error e => .error e
     | .ok v =>
       if validTypeNames.contains row.vtype then
         match hdrGet h "FILENAME" with
         | .error e => .error e
         | .ok fv =>
           .ok (verify_type row.keyword v row.vtype (hvalStr fv)
                 "test_keywords_types")
       else .error (.keyError row.vtype))

/-- The check test_keywords_types on one header: the row body over every
catalog row. -/
def test_keywords_types_hdr (schema : List SchemaRow) (h : Header) :
    Header × List Violation × Option PyErr :=
  (h, runSeq (test_keywords_types_row h) schema)

/-- The body of the test_kws_in_interval loop for one (already
numeric-typed) catalog row, inside its try/except: read the value and
FILENAME, skip keywords on the kws_specific_values exclusion list, split
the Allowed values cell on the comma into exactly a minimum and a maximum,
parse the minimum as a float, map the literal inf to positive infinity for
the maximum, and run kw_in_interval; any failure is caught by catchLog. -/
def test_kws_in_interval_row (h : Header) (row : SchemaRow) :
    List Violation × Option PyErr :=
  catchLog h "test_kws_in_interval"
    (match hdrGet h row.keyword with
     | .error e => .error e
     | .ok v =>
       match hdrGet h "FILENAME" with
       | .error e => .error e
       | .ok fv =>
         if kws_specific_values.contains row.keyword then .ok []
         else
           match splitChar ',' row.allowedValues with
           | [smin, smax] =>
             match pyFloat smin with
             | none => .error (.valueErrorParse smin)
             | some lo =>
               match (if smax == "inf" then some none
                      else (pyFloat smax).map some) with
               | none => .error (.valueErrorParse smax)
               | some hi =>
                 match v.toNumQ with
                 | none => .error (.typeError "compare")
                 | some q =>
                   .ok (kw_in_interval lo hi q row.keyword (hvalStr fv)
                         "test_kws_in_interval")
           | _ => .error .valueErrorUnpack)

/-- The check test_kws_in_interval on one header: the row body over the
catalog rows whose Type is integer or float. -/
def test_kws_in_interval_hdr (schema : List SchemaRow) (h : Header) :
    Header × List Violation × Option PyErr :=
  (h, runSeq (test_kws_in_interval_row h)
        (schema.filter (fun r => r.vtype == "integer" || r.vtype == "float")))

/-- The pandas row selection on the catalog by keyword equality. -/
def schemaRowsFor (schema : List SchemaRow) (kw : String) : List SchemaRow :=
  schema.filter (fun r => r.keyword == kw)

/-- The coercion of the split Allowed values cell in test_kws_specific_vals:
for an integer or float typed row every element is fed to the int or float
constructor (a failure raises a ValueError), otherwise the raw strings are
kept. -/
def coerceAllowed (vtype : String) (parts : List String) :
    Except PyErr (List HVal) :=
  if vtype == "integer" then
    parts.mapM (fun p =>
      match pyInt p with
      | some n => .ok (HVal.i n)
      | none => .error (.valueErrorParse p))
  else if vtype == "float" then
    parts.mapM (fun p =>
      match pyFloat p with
      | some q => .ok (HVal.f q)
      | none => .error (.valueErrorParse p))
  else .ok (parts.map HVal.s)

/-- The body of the test_kws_specific_vals loop for one exclusion-list
keyword, with no surrounding try/except: select the catalog row (an empty
selection raises an IndexError on values 0), coerce the allowed values,
read FILENAME and the value, log via val_in_list, and then assert
membership again, so a logged violation is immediately followed by an
AssertionError that aborts the check. -/
def specific_vals_kw (schema : List SchemaRow) (h : Header) (kw : String) :
    List Violation × Option PyErr :=
  match schemaRowsFor schema kw with
  | [] => ([], some .indexError)
  | row :: _ =>
    match coerceAllowed row.vtype (splitChar ',' row.allowedValues) with
    | .error e => ([], some e)
    | .ok allowed =>
      match hdrGet h "FILENAME" with
      | .error e => ([], some e)
      | .ok fv =>
        match hdrGet h kw with
        | .error e => ([], some e)
        | .ok v =>
          let log := val_in_list v allowed kw (hvalStr fv)
            "test_kws_specific_vals"
          if allowed.any (fun a => pyEq v a) then (log, none)
          else (log, some .assertionError)

/-- The check test_kws_specific_vals on one header: the keyword body over
the whole kws_specific_values list. -/
def test_kws_specific_vals_hdr (schema : List SchemaRow) (h : Header) :
    Header × List Violation × Option PyErr :=
  (h, runSeq (specific_vals_kw schema h) kws_specific_values)

/-- The body of the test_kw_sizes loop for one (keyword, limit) pair, with
no surrounding try/except: read the value and FILENAME, take len of the
value, and log when the length strictly exceeds the limit (the body of the
static method verify_str_size). -/
def test_kw_sizes_item (h : Header) (item : String × ℕ) :
    List Violation × Option PyErr :=
  match hdrGet h item.1 with
  | .error e => ([], some e)
  | .ok v =>
    match hdrGet h "FILENAME" with
    | .error e => ([], some e)
    | .ok fv =>
      match pyLen v with
      | .error e => ([], some e)
      | .ok n =>
        if n > item.2 then
          ([⟨"test_kw_sizes", hvalStr fv, .sizeExceeded item.1 item.2 n⟩],
           none)
        else ([], none)

/-- The check test_kw_sizes on one header: the item body over the fixed
kws_fixed_str_size catalog. -/
def test_kw_sizes_hdr (h : Header) : Header × List Violation × Option PyErr :=
  (h, runSeq (test_kw_sizes_item h) kws_fixed_str_size)

/-- One row of a calibration lookup table (preamp_gains.csv or
read_noises.csv): the EM Mode, Readout Rate and Preamp key columns plus one
numeric cell per sensor serial-number column. -/
structure CalibRow where
  emMode : String
  readout : ℚ
  preamp : ℚ
  cells : List (String × ℚ)
  deriving DecidableEq

/-- A calibration lookup table: its column names plus its rows. -/
structure CalibTable where
  cols : List String
  rows : List CalibRow
  deriving DecidableEq

/-- The EM-mode component of the calibration lookup key: the header EMMODE
value when it equals the string Conventional, and the string EM for every
other value whatsoever. -/
def emModeKey (v : HVal) : String :=
  if pyEq v (.s "Conventional") then "Conventional" else "EM"

/-- The boolean row filter of test_ccd_gain and test_read_noise: rows whose
EM Mode, Readout Rate and Preamp columns all match the derived key (the
readout comparison is the elementwise pandas equality of a numeric column
against the raw header value). -/
def calibFilter (t : CalibTable) (em : String) (rr : HVal) (pa : ℚ) :
    List CalibRow :=
  t.rows.filter (fun r =>
    r.emMode == em && pyEq (.f r.readout) rr && decide (r.preamp = pa))

/-- The pandas access line serial followed by values 0: a KeyError when the
serial column does not exist, an IndexError when the filtered selection is
empty, otherwise the cell of the first matching row. -/
def colGet (t : CalibTable) (line : List CalibRow) (serial : String) :
    Except PyErr ℚ :=
  if t.cols.contains serial then
    match line with
    | [] => .error .indexError
    | r :: _ =>
      match r.cells.lookup serial with
      | some q => .ok q
      | none => .error (.keyError serial)
  else .error (.keyError serial)

/-- The preamp component of the lookup key: float of the last character of
the PREAMP string; subscripting a non-string raises a TypeError, an empty
string raises an IndexError, a non-numeric last character a ValueError. -/
def lastCharFloat : HVal → Except PyErr ℚ
  | .s st =>
    (match st.toList.getLast? with
     | none => .error .indexError
     | some c =>
       match pyFloat (String.mk [c]) with
       | some q => .ok q
       | none => .error (.valueErrorParse (String.mk [c])))
  | _ => .error (.typeError "subscript")

/-- The shared body of test_ccd_gain and test_read_noise on one header (the
two source functions are identical up to the table, the compared keyword
and the test name): derive the (EM mode, readout, preamp) key, select the
matching rows, address the column named by the CCDSERN serial number, and
compare the expected cell with the received header value via
compare_numbers. No failure is caught. -/
def calib_check_hdr (t : CalibTable) (valueKw tname : String) (h : Header) :
    Header × List Violation × Option PyErr :=
  (h,
    match hdrGet h "EMMODE" with
    | .error e => ([], some e)
    | .ok emv =>
      match hdrGet h "READRATE" with
      | .error e => ([], some e)
      | .ok rr =>
        match hdrGet h "PREAMP" with
        | .error e => ([], some e)
        | .ok pav =>
          match lastCharFloat pav with
          | .error e => ([], some e)
          | .ok pa =>
            match hdrGet h "CCDSERN" with
            | .error e => ([], some e)
            | .ok sn =>
              match hdrGet h valueKw with
              | .error e => ([], some e)
              | .ok gv =>
                let line := calibFilter t (emModeKey emv) rr pa
                match hdrGet h "FILENAME" with
                | .error e => ([], some e)
                | .ok fv =>
                  match colGet t line (hvalStr sn) with
                  | .error e => ([], some e)
                  | .ok expected =>
                    match gv.toNumQ with
                    | none => ([], some (.typeError "allclose"))
                    | some rq =>
                      (compare_numbers expected rq (hvalStr fv) tname, none))

/-- The check test_ccd_gain on one header. -/
def test_ccd_gain_hdr (gains : CalibTable) (h : Header) :
    Header × List Violation × Option PyErr :=
  calib_check_hdr gains "GAIN" "test_ccd_gain" h

/-- The check test_read_noise on one header. -/
def test_read_noise_hdr (noises : CalibTable) (h : Header) :
    Header × List Violation × Option PyErr :=
  calib_check_hdr noises "RDNOISE" "test_read_noise" h

/-- The full check test_missing_keywords over the shared header batch. -/
def test_missing_keywords (schema : List SchemaRow) (hs : List Header) :
    List Header × List Violation × Option PyErr :=
  runHdrs (test_missing_keywords_hdr schema) hs

/-- The full check test_kws_specific_vals over the shared header batch. -/
def test_kws_specific_vals (schema : List SchemaRow) (hs : List Header) :
    List Header × List Violation × Option PyErr :=
  runHdrs (test_kws_specific_vals_hdr schema) hs

/-- The full check test_WPPOS over the shared header batch. -/
def test_WPPOS (hs : List Header) :
    List Header × List Violation × Option PyErr :=
  runHdrs test_WPPOS_hdr hs

/-- The full check test_comment_kw over the shared header batch. -/
def test_comment_kw (hs : List Header) :
    List Header × List Violation × Option PyErr :=
  runHdrs test_comment_kw_hdr hs

/-- Statement-side predicate: the header satisfies both fatal conditions of
test_WPPOS (INSTMODE equals POLAR and WPPOS equals 0). -/
def polarZero (h : Header) : Bool :=
  match hdrGet h "INSTMODE", hdrGet h "WPPOS" with
  | .ok a, .ok b => pyEq a (.s "POLAR") && pyEq b (.i 0)
  | _, _ => false

/-- Statement-side label: the FILENAME string of a header (empty when the
entry is missing). -/
def filenameOf (h : Header) : String :=
  match hdrGet h "FILENAME" with
  | .ok v => hvalStr v
  | .error _ => ""

/-- A successful subscript access implies the keyword is listed by keys. -/
theorem hdrGet_ok_contains {h : Header} {k : String} {v : HVal}
    (hv : hdrGet h k = .ok v) : h.keys.contains k = true := by
  unfold hdrGet at hv
  cases hfind : h.entries.find? (fun p => p.1 == k) with
  | none => rw [hfind] at hv; cases hv
  | some p =>
    have hmem := List.mem_of_find?_eq_some hfind
    have hbeq := List.find?_some hfind
    simp only [Header.keys, List.contains_iff_exists_mem_beq]
    exact ⟨p.1, List.mem_map_of_mem _ hmem,
      by simpa using (by simpa using hbeq : p.1 = k).symm⟩

/-- Claim C9: in both calibration checks the EM-mode component of the lookup
key maps every EMMODE value other than the exact string Conventional
(misspelled or invalid values included) to EM, so the derived key is always
one of Conventional and EM, and an invalid EMMODE value yields exactly the
row selection of the key EM, never an EM-mode column miss of its own. -/
theorem claim_C9 :
    (∀ v : HVal, emModeKey v = "Conventional" ∨ emModeKey v = "EM") ∧
    (∀ (t : CalibTable) (v rr : HVal) (pa : ℚ),
      pyEq v (HVal.s "Conventional") = false →
      calibFilter t (emModeKey v) rr pa = calibFilter t "EM" rr pa) := by
  constructor
  · intro v
    unfold emModeKey
    split
    · exact Or.inl rfl
    · exact Or.inr rfl
  · intro t v rr pa hv
    simp [emModeKey, hv]

/-- A concrete two-row calibration table for the claim C9 witness. -/
def tblC9w : CalibTable :=
  ⟨["EM Mode", "Readout Rate", "Preamp", "9914"],
   [⟨"EM", 1, 1, [("9914", 16)]⟩, ⟨"Conventional", 1, 1, [("9914", 3)]⟩]⟩

/-- Witness for claim C9: a misspelled EMMODE value selects exactly the EM
rows of a concrete calibration table. -/
theorem claim_C9_witness :
    calibFilter tblC9w (emModeKey (HVal.s "EEM")) (HVal.f 1) 1 =
      calibFilter tblC9w "EM" (HVal.f 1) 1 :=
  claim_C9.2 tblC9w (HVal.s "EEM") (HVal.f 1) 1 (by decide)

/-- Claim C8 (amended): the expected-versus-received comparisons routed
through compare_numbers use the approximate np.allclose equality, but the
enumeration-membership test val_in_list passes exactly when some allowed
element is Python-equal to the value, with no tolerance. -/
theorem claim_C8_amended :
    (∀ (e r : ℚ) (fn t : String),
      compare_numbers e r fn t = [] ↔ allclose e r = true) ∧
    (∀ (v : HVal) (l : List HVal) (kw fn t : String),
      val_in_list v l kw fn t = [] ↔ l.any (fun a => pyEq v a) = true) := by
  constructor
  · intro e r fn t
    unfold compare_numbers
    split <;> simp_all
  · intro v l kw fn t
    unfold val_in_list
    split <;> simp_all

/-- Counterexample to claim C8 as stated: a received value within the
np.allclose tolerance of the single allowed value is still logged as a
violation by the membership test, because val_in_list compares exactly. -/
theorem claim_C8_counterexample :
    allclose 1 (1 + 1 / 1000000) = true ∧
    val_in_list (HVal.f (1 + 1 / 1000000)) [HVal.f 1] "READRATE" "file.fits"
        "test_kws_specific_vals" =
      [⟨"test_kws_specific_vals", "file.fits",
        Payload.notInList "READRATE" [HVal.f 1] (HVal.f (1 + 1 / 1000000))⟩] := by
  constructor
  · unfold allclose
    norm_num [abs_of_pos]
  · unfold val_in_list
    norm_num [pyEq, HVal.toNumQ]

/-- Claim C10: for a header in which a COMMENT entry is still present when
test_comment_kw runs, the check logs a violation exactly when the COMMENT
value, viewed as the unordered set of its elements, is the empty set (a
present-but-empty COMMENT is flagged), logs nothing for a COMMENT with at
least one element, and skips headers with no COMMENT entry. -/
theorem claim_C10 (h : Header) (fv : HVal) (ls : List String)
    (hf : hdrGet h "FILENAME" = .ok fv)
    (hc : hdrGet h "COMMENT" = .ok (.cards ls)) :
    test_comment_kw_hdr h =
      (h,
       (if ls.toFinset = (∅ : Finset String) then
          [⟨"test_comment_kw", hvalStr fv, Payload.equalSets ∅ ls.toFinset⟩]
        else []),
       none) ∧
    ((test_comment_kw_hdr h).2.1 ≠ [] ↔ ls = []) ∧
    (∀ h2 : Header, h2.keys.contains "COMMENT" = false →
      test_comment_kw_hdr h2 = (h2, [], none)) := by
  have hmain : test_comment_kw_hdr h =
      (h,
       (if ls.toFinset = (∅ : Finset String) then
          [⟨"test_comment_kw", hvalStr fv, Payload.equalSets ∅ ls.toFinset⟩]
        else []),
       none) := by
    unfold test_comment_kw_hdr
    rw [hdrGet_ok_contains hc]
    simp only [if_true]
    rw [hf, hc]
    by_cases he : ls.toFinset = (∅ : Finset String)
    · simp [commentElems, verify_if_different, he]
    · simp [commentElems, verify_if_different, he, Ne.symm he]
  refine ⟨hmain, ?_, ?_⟩
  · rw [hmain]
    by_cases he : ls.toFinset = (∅ : Finset String)
    · simp [he]
      exact List.toFinset_eq_empty_iff ls |>.mp he
    · simp [he]
      intro hnil
      exact he (by simp [hnil])
  · intro h2 hnc
    unfold test_comment_kw_hdr
    rw [hnc]
    simp

/-- A concrete header with an empty COMMENT for the claim C10 witness. -/
def hdrC10w : Header :=
  ⟨[("FILENAME", HVal.s "w10.fits"), ("COMMENT", HVal.cards [])]⟩

/-- Witness for claim C10: a present-but-empty COMMENT is flagged by
exactly one logged record and the check does not abort. -/
theorem claim_C10_witness :
    test_comment_kw_hdr hdrC10w =
      (hdrC10w, [⟨"test_comment_kw", "w10.fits", Payload.equalSets ∅ ∅⟩],
       none) := by
  have h := (claim_C10 hdrC10w (HVal.s "w10.fits") [] rfl rfl).1
  simpa [hvalStr] using h

/-- Claim C7: the fixed-size string check over the catalog PROJID (limit
15), OBJECT (limit 30), OBSERVER (limit 54) records a violation citing the
keyword, the declared limit and the actual length exactly when the stored
string is strictly longer than the limit; a length equal to the limit
yields none. -/
theorem claim_C7 (h : Header) (fv : HVal) (p o ob : String)
    (hf : hdrGet h "FILENAME" = .ok fv)
    (hp : hdrGet h "PROJID" = .ok (.s p))
    (ho : hdrGet h "OBJECT" = .ok (.s o))
    (hob : hdrGet h "OBSERVER" = .ok (.s ob)) :
    test_kw_sizes_hdr h =
      (h,
       (if p.length > 15 then
          [⟨"test_kw_sizes", hvalStr fv, Payload.sizeExceeded "PROJID" 15 p.length⟩]
        else []) ++
       (if o.length > 30 then
          [⟨"test_kw_sizes", hvalStr fv, Payload.sizeExceeded "OBJECT" 30 o.length⟩]
        else []) ++
       (if ob.length > 54 then
          [⟨"test_kw_sizes", hvalStr fv, Payload.sizeExceeded "OBSERVER" 54 ob.length⟩]
        else []),
       none) := by
  unfold test_kw_sizes_hdr kws_fixed_str_size
  simp only [runSeq, test_kw_sizes_item, hf, hp, ho, hob, pyLen]
  split_ifs with h1 h2 h3 <;> simp_all [runSeq]

/-- A concrete header whose OBSERVER value has length 60, for the claim C7
witness. -/
def hdrC7w : Header :=
  ⟨[("FILENAME", HVal.s "w7.fits"), ("PROJID", HVal.s "P001"),
    ("OBJECT", HVal.s "NGC 104"),
    ("OBSERVER", HVal.s "aaaaaaaaaaaaaaaaaaaaaaaaaaaaaaaaaaaaaaaaaaaaaaaaaaaaaaaaaaaa")]⟩

/-- Witness for claim C7: an OBSERVER value of length 60 against the limit
54 yields exactly one violation citing OBSERVER, 54 and 60, while PROJID
and OBJECT values within their limits yield none. -/
theorem claim_C7_witness :
    test_kw_sizes_hdr hdrC7w =
      (hdrC7w,
       [⟨"test_kw_sizes", "w7.fits", Payload.sizeExceeded "OBSERVER" 54 60⟩],
       none) := by
  rw [claim_C7 hdrC7w (HVal.s "w7.fits") "P001" "NGC 104"
    "aaaaaaaaaaaaaaaaaaaaaaaaaaaaaaaaaaaaaaaaaaaaaaaaaaaaaaaaaaaa"
    rfl rfl rfl rfl]
  decide

/-- Claim C2: after removing a COMMENT entry, the presence check records a
violation if and only if the keyword set of the header differs from the
keyword set of the schema catalog, the logged diagnostic being the
symmetric difference of the two sets; the comparison is on unordered sets
built by toFinset, so keyword ordering and duplicates are irrelevant, and
an empty symmetric difference yields no presence violation. -/
theorem claim_C2 (schema : List SchemaRow) (h : Header) (fv : HVal)
    (hf : hdrGet (delComment h) "FILENAME" = .ok fv) :
    (test_missing_keywords_hdr schema h).1 = delComment h ∧
    (test_missing_keywords_hdr schema h).2.2 = none ∧
    ((test_missing_keywords_hdr schema h).2.1 = [] ↔
      (schema.map SchemaRow.keyword).toFinset = (delComment h).keys.toFinset) ∧
    ((schema.map SchemaRow.keyword).toFinset ≠ (delComment h).keys.toFinset →
      (test_missing_keywords_hdr schema h).2.1 =
        [⟨"test_missing_keywords", hvalStr fv,
          Payload.setDiff (symmDiffSet (schema.map SchemaRow.keyword).toFinset
            (delComment h).keys.toFinset)⟩]) := by
  unfold test_missing_keywords_hdr
  dsimp only
  rw [hf]
  unfold compare_lists
  by_cases he : (schema.map SchemaRow.keyword).toFinset = (delComment h).keys.toFinset
  · simp [he]
  · simp [he]

/-- A concrete two-row catalog for the claim C2 witness. -/
def schemaC2w : List SchemaRow :=
  [⟨"FILENAME", "string", "", "file name"⟩,
   ⟨"OBSLONG", "float", "-90,90", "longitude"⟩]

/-- A concrete header with a duplicate keyword, shuffled order and a
COMMENT entry, for the claim C2 witness. -/
def hdrC2w : Header :=
  ⟨[("OBSLONG", HVal.f 1), ("FILENAME", HVal.s "w2.fits"),
    ("OBSLONG", HVal.f 2), ("COMMENT", HVal.cards ["c1"])]⟩

/-- Witness for claim C2: a header whose keyword set equals the catalog
keyword set up to order, duplicates and a COMMENT entry yields no presence
violation. -/
theorem claim_C2_witness :
    (test_missing_keywords_hdr schemaC2w hdrC2w).2.1 = [] :=
  (claim_C2 schemaC2w hdrC2w (HVal.s "w2.fits") rfl).2.2.1.mpr (by decide)

/-- Claim C4: provided every header carries the INSTMODE, WPPOS and
FILENAME entries the check reads, the waveplate-position check logs no
violation ever, raises the ValueError naming the FILENAME of the first
header with INSTMODE equal to POLAR and WPPOS equal to 0 when one exists
(aborting the run there), and raises nothing when no header satisfies both
conditions. -/
theorem claim_C4 (hs : List Header)
    (hwf : ∀ h ∈ hs,
      (∃ a, hdrGet h "INSTMODE" = .ok a) ∧ (∃ b, hdrGet h "WPPOS" = .ok b) ∧
      (∃ c, hdrGet h "FILENAME" = .ok c)) :
    (test_WPPOS hs).2.1 = [] ∧
    (test_WPPOS hs).2.2 =
      (hs.find? polarZero).map (fun h => PyErr.valueErrorWPPOS (filenameOf h)) := by
  induction hs with
  | nil => exact ⟨rfl, rfl⟩
  | cons h t ih =>
    obtain ⟨⟨a, ha⟩, ⟨b, hb⟩, ⟨c, hc⟩⟩ := hwf h (List.mem_cons_self h t)
    have ihw := ih (fun x hx => hwf x (List.mem_cons_of_mem _ hx))
    have hpz : polarZero h = (pyEq a (HVal.s "POLAR") && pyEq b (HVal.i 0)) := by
      unfold polarZero
      rw [ha, hb]
    have hfn : filenameOf h = hvalStr c := by
      unfold filenameOf
      rw [hc]
    by_cases hcond : (pyEq a (HVal.s "POLAR") && pyEq b (HVal.i 0)) = true
    · have hstep : test_WPPOS_hdr h =
          (h, [], some (PyErr.valueErrorWPPOS (hvalStr c))) := by
        unfold test_WPPOS_hdr
        rw [ha, hb]
        dsimp only
        rw [if_pos hcond, hc]
      unfold test_WPPOS runHdrs
      rw [hstep]
      dsimp only
      rw [List.find?_cons_of_pos _ (by rw [hpz]; exact hcond)]
      exact ⟨rfl, by simp [hfn]⟩
    · have hstep : test_WPPOS_hdr h = (h, [], none) := by
        unfold test_WPPOS_hdr
        rw [ha, hb]
        dsimp only
        rw [if_neg hcond]
      unfold test_WPPOS runHdrs
      rw [hstep]
      dsimp only
      rw [List.find?_cons_of_neg _ (by rw [hpz]; exact hcond)]
      unfold test_WPPOS at ihw
      exact ⟨by simp [ihw.1], ihw.2⟩

/-- A non-polar header for the claim C4 witness. -/
def hdrC4w1 : Header :=
  ⟨[("FILENAME", HVal.s "w4a.fits"), ("INSTMODE", HVal.s "PHOT"),
    ("WPPOS", HVal.i 3)]⟩

/-- A polar header with waveplate position zero for the claim C4 witness. -/
def hdrC4w2 : Header :=
  ⟨[("FILENAME", HVal.s "w4b.fits"), ("INSTMODE", HVal.s "POLAR"),
    ("WPPOS", HVal.i 0)]⟩

/-- Witness for claim C4: a batch whose second header is polar with
waveplate position zero logs nothing and aborts with the ValueError naming
that header. -/
theorem claim_C4_witness :
    (test_WPPOS [hdrC4w1, hdrC4w2]).2.1 = [] ∧
    (test_WPPOS [hdrC4w1, hdrC4w2]).2.2 =
      some (PyErr.valueErrorWPPOS "w4b.fits") := by
  have h := claim_C4 [hdrC4w1, hdrC4w2] (by
    intro x hx
    simp only [List.mem_cons, List.not_mem_nil, or_false] at hx
    rcases hx with rfl | rfl
    · exact ⟨⟨_, rfl⟩, ⟨_, rfl⟩, ⟨_, rfl⟩⟩
    · exact ⟨⟨_, rfl⟩, ⟨_, rfl⟩, ⟨_, rfl⟩⟩)
  refine ⟨h.1, ?_⟩
  rw [h.2]
  decide

/-- Claim C5: for a numeric-typed catalog row whose keyword is not on the
enumerated-value exclusion list, the interval check parses the allowed
values cell as a comma-separated minimum and maximum with the literal inf
mapped to an unbounded maximum, and records exactly one violation naming
the keyword when the value lies outside the closed interval, none when the
minimum and maximum bound it inclusively; the per-header check applies
this row body exactly to the catalog rows of integer or float type. -/
theorem claim_C5 (schema : List SchemaRow) (h : Header) (row : SchemaRow)
    (fv v : HVal) (q lo : ℚ) (hi : Option ℚ) (smin smax : String)
    (hkw : kws_specific_values.contains row.keyword = false)
    (hv : hdrGet h row.keyword = .ok v) (hq : v.toNumQ = some q)
    (hf : hdrGet h "FILENAME" = .ok fv)
    (hsplit : splitChar ',' row.allowedValues = [smin, smax])
    (hlo : pyFloat smin = some lo)
    (hhi : (if smax == "inf" then some none else (pyFloat smax).map some) = some hi) :
    test_kws_in_interval_row h row =
      ((if decide (lo ≤ q) && leMax q hi then []
        else [⟨"test_kws_in_interval", hvalStr fv,
               Payload.notInInterval row.keyword lo hi q⟩]), none) ∧
    (test_kws_in_interval_hdr schema h).2.1 =
      (runSeq (test_kws_in_interval_row h)
        (schema.filter (fun r => r.vtype == "integer" || r.vtype == "float"))).1 := by
  constructor
  · unfold test_kws_in_interval_row catchLog
    simp only [hv, hf, hkw, hsplit, hlo, hhi, hq, Bool.false_eq_true, if_false]
    unfold kw_in_interval
    rfl
  · rfl

/-- A concrete numeric catalog row with an unbounded maximum for the claim
C5 witness. -/
def rowC5w : SchemaRow := ⟨"EXPTIME", "float", "0,inf", "exposure time"⟩

/-- A concrete header whose EXPTIME lies inside the allowed interval, for
the claim C5 witness. -/
def hdrC5w : Header :=
  ⟨[("FILENAME", HVal.s "w5.fits"), ("EXPTIME", HVal.f 2)]⟩

/-- Witness for claim C5: a value inside the closed interval from 0 to the
unbounded maximum yields no interval violation and no abort. -/
theorem claim_C5_witness :
    test_kws_in_interval_row hdrC5w rowC5w = ([], none) := by
  have h := (claim_C5 [] hdrC5w rowC5w (HVal.s "w5.fits") (HVal.f 2) 2 0 none
    "0" "inf" rfl rfl rfl rfl rfl (by decide) rfl).1
  rw [h]
  norm_num [leMax]

/-- Claim C1 (amended): for an exclusion-list keyword with a catalog row
and parseable allowed values, when the header value is not a member of the
parsed allowed set the enumeration check records one violation naming the
keyword, the allowed set and the value, but then immediately fails the
membership assertion, aborting the check so that later keywords and
headers of the run are not examined; when the value is a member nothing is
logged and nothing is raised. -/
theorem claim_C1_amended (schema : List SchemaRow) (h : Header) (kw : String)
    (row : SchemaRow) (rest : List SchemaRow) (allowed : List HVal) (fv v : HVal)
    (hrow : schemaRowsFor schema kw = row :: rest)
    (hco : coerceAllowed row.vtype (splitChar ',' row.allowedValues) = .ok allowed)
    (hf : hdrGet h "FILENAME" = .ok fv)
    (hv : hdrGet h kw = .ok v) :
    specific_vals_kw schema h kw =
      if allowed.any (fun a => pyEq v a) then ([], none)
      else ([⟨"test_kws_specific_vals", hvalStr fv, Payload.notInList kw allowed v⟩],
            some PyErr.assertionError) := by
  unfold specific_vals_kw
  simp only [hrow, hco, hf, hv]
  by_cases hmem : (allowed.any (fun a => pyEq v a)) = true
  · simp [val_in_list, hmem]
  · rw [Bool.not_eq_true] at hmem
    simp [val_in_list, hmem]

/-- A catalog allowing only the value A for every exclusion-list keyword,
for the claim C1 counterexample. -/
def schemaC1x : List SchemaRow :=
  kws_specific_values.map (fun kw => ⟨kw, "string", "A", "c"⟩)

/-- A header violating the enumeration for FILTER and also for the later
keyword OBSTYPE, for the claim C1 counterexample. -/
def hdrC1x : Header :=
  ⟨("FILENAME", HVal.s "c1.fits") :: kws_specific_values.map (fun kw =>
    (kw, if kw = "FILTER" then HVal.s "X"
         else if kw = "OBSTYPE" then HVal.s "Y" else HVal.s "A"))⟩

/-- Counterexample to claim C1 as stated: on a header whose FILTER and
OBSTYPE values are both outside their allowed sets, the enumeration check
logs the FILTER violation and then aborts with an AssertionError, so the
run does not continue to the next keyword (the OBSTYPE violation is never
logged) and the violation is fatal. -/
theorem claim_C1_counterexample :
    (test_kws_specific_vals schemaC1x [hdrC1x]).2.2 = some PyErr.assertionError ∧
    (test_kws_specific_vals schemaC1x [hdrC1x]).2.1 =
      [⟨"test_kws_specific_vals", "c1.fits",
        Payload.notInList "FILTER" [HVal.s "A"] (HVal.s "X")⟩] := by
  constructor <;> rfl

/-- Witness for claim C1 (amended): the keyword body on the offending
FILTER value logs exactly the violation and raises the AssertionError. -/
theorem claim_C1_witness :
    specific_vals_kw schemaC1x hdrC1x "FILTER" =
      ([⟨"test_kws_specific_vals", "c1.fits",
         Payload.notInList "FILTER" [HVal.s "A"] (HVal.s "X")⟩],
       some PyErr.assertionError) := by
  rw [claim_C1_amended schemaC1x hdrC1x "FILTER" ⟨"FILTER", "string", "A", "c"⟩
    (schemaRowsFor schemaC1x "FILTER").tail [HVal.s "A"] (HVal.s "c1.fits")
    (HVal.s "X") rfl rfl rfl rfl]
  decide

/-- With a FILENAME entry present, the shared try/except wrapper never lets
an exception escape. -/
theorem catchLog_snd_none {h : Header} {tname : String}
    {inner : Except PyErr (List Violation)} {fv : HVal}
    (hf : hdrGet h "FILENAME" = .ok fv) :
    (catchLog h tname inner).2 = none := by
  unfold catchLog
  cases inner with
  | ok log => rfl
  | error e => rw [hf]

/-- Claim C3 (amended): only the type check and the interval check catch
lookup and access failures at the check boundary; given a FILENAME entry
they never abort, and a missing schema keyword is converted into a logged
record carrying the KeyError description while the run continues. The
other per-keyword checks do not catch such failures (see the
counterexample, where the enumeration check lets the KeyError escape). -/
theorem claim_C3_amended (h : Header) (row : SchemaRow) (fv : HVal)
    (hf : hdrGet h "FILENAME" = .ok fv) :
    (test_keywords_types_row h row).2 = none ∧
    (test_kws_in_interval_row h row).2 = none ∧
    (hdrGet h row.keyword = .error (PyErr.keyError row.keyword) →
      test_keywords_types_row h row =
        ([⟨"test_keywords_types", hvalStr fv,
           Payload.exceptionMsg (PyErr.keyError row.keyword)⟩], none) ∧
      test_kws_in_interval_row h row =
        ([⟨"test_kws_in_interval", hvalStr fv,
           Payload.exceptionMsg (PyErr.keyError row.keyword)⟩], none)) := by
  refine ⟨catchLog_snd_none hf, catchLog_snd_none hf, ?_⟩
  intro hmiss
  constructor
  · unfold test_keywords_types_row catchLog
    simp only [hmiss, hf]
  · unfold test_kws_in_interval_row catchLog
    simp only [hmiss, hf]

/-- A catalog allowing only the value A for every exclusion-list keyword,
for the claim C3 counterexample. -/
def schemaC3x : List SchemaRow :=
  kws_specific_values.map (fun kw => ⟨kw, "string", "A", "c"⟩)

/-- A header carrying every exclusion-list keyword except FILTER, for the
claim C3 counterexample. -/
def hdrC3x : Header :=
  ⟨("FILENAME", HVal.s "c3.fits") ::
    (kws_specific_values.filter (fun k => !(k == "FILTER"))).map
      (fun kw => (kw, HVal.s "A"))⟩

/-- Counterexample to claim C3 as stated: a header missing the schema
keyword FILTER makes the enumeration check abort with an uncaught
KeyError, logging no violation at all, instead of converting the failure
into a logged record and continuing. -/
theorem claim_C3_counterexample :
    (test_kws_specific_vals schemaC3x [hdrC3x]).2.2 =
      some (PyErr.keyError "FILTER") ∧
    (test_kws_specific_vals schemaC3x [hdrC3x]).2.1 = [] := by
  constructor <;> rfl

/-- A catalog row for FILTER, for the claim C3 witness. -/
def rowC3w : SchemaRow := ⟨"FILTER", "string", "A", "c"⟩

/-- A header with only a FILENAME entry, for the claim C3 witness. -/
def hdrC3w : Header := ⟨[("FILENAME", HVal.s "w3.fits")]⟩

/-- Witness for claim C3 (amended): on a header missing FILTER, the type
check and the interval check each log one exception record and continue. -/
theorem claim_C3_witness :
    test_keywords_types_row hdrC3w rowC3w =
      ([⟨"test_keywords_types", "w3.fits",
         Payload.exceptionMsg (PyErr.keyError "FILTER")⟩], none) ∧
    test_kws_in_interval_row hdrC3w rowC3w =
      ([⟨"test_kws_in_interval", "w3.fits",
         Payload.exceptionMsg (PyErr.keyError "FILTER")⟩], none) := by
  have h := (claim_C3_amended hdrC3w rowC3w (HVal.s "w3.fits") rfl).2.2 rfl
  simpa [hvalStr] using h

/-- Removing the COMMENT entry leaves the lookup of every other keyword
unchanged. -/
theorem delComment_get (h : Header) (k : String) (hk : k ≠ "COMMENT") :
    hdrGet (delComment h) k = hdrGet h k := by
  obtain ⟨l⟩ := h
  unfold hdrGet delComment
  dsimp only
  induction l with
  | nil => rfl
  | cons p t ih =>
    by_cases hpc : (p.1 == "COMMENT") = true
    · have hpk : (p.1 == k) = false := by
        have : p.1 = "COMMENT" := eq_of_beq hpc
        rw [this]
        exact beq_eq_false_iff_ne.mpr (Ne.symm hk)
      simp only [List.filter, hpc, Bool.not_true, List.find?, hpk] at *
      exact ih
    · rw [Bool.not_eq_true] at hpc
      simp only [List.filter, hpc, Bool.not_false, List.find?]
      by_cases hpk : (p.1 == k) = true
      · simp only [hpk]
      · rw [Bool.not_eq_true] at hpk
        simp only [hpk] at *
        exact ih

/-- Claim C6 (amended): every modelled check leaves its header unchanged
except the keyword-set comparison, which deletes the COMMENT entry from
the shared header in place (affecting no other keyword); consequently the
COMMENT check is order-sensitive, as the counterexample shows, while the
remaining checks receive exactly the header they are given. -/
theorem claim_C6_amended (schema : List SchemaRow) (t : CalibTable) (h : Header) :
    (test_missing_keywords_hdr schema h).1 = delComment h ∧
    (test_comment_kw_hdr h).1 = h ∧
    (test_WPPOS_hdr h).1 = h ∧
    (test_keywords_types_hdr schema h).1 = h ∧
    (test_kws_in_interval_hdr schema h).1 = h ∧
    (test_kws_specific_vals_hdr schema h).1 = h ∧
    (test_kw_sizes_hdr h).1 = h ∧
    (test_ccd_gain_hdr t h).1 = h ∧
    (test_read_noise_hdr t h).1 = h ∧
    (∀ k, k ≠ "COMMENT" → hdrGet (delComment h) k = hdrGet h k) :=
  ⟨rfl, rfl, rfl, rfl, rfl, rfl, rfl, rfl, rfl, fun k hk => delComment_get h k hk⟩

/-- A one-row catalog for the claim C6 counterexample. -/
def schemaC6x : List SchemaRow := [⟨"FILENAME", "string", "", "file name"⟩]

/-- A header with an empty COMMENT entry for the claim C6 counterexample. -/
def hdrC6x : Header :=
  ⟨[("FILENAME", HVal.s "c6.fits"), ("COMMENT", HVal.cards [])]⟩

/-- Counterexample to claim C6 as stated: the COMMENT check flags this
header when it runs first, but logs nothing when the keyword-set
comparison ran before it, because that comparison mutated the shared
header by deleting COMMENT; so a check result does depend on which other
checks ran before it. -/
theorem claim_C6_counterexample :
    (test_comment_kw_hdr hdrC6x).2.1 ≠ [] ∧
    (test_comment_kw_hdr (test_missing_keywords_hdr schemaC6x hdrC6x).1).2.1 = [] ∧
    (test_missing_keywords_hdr schemaC6x hdrC6x).1 ≠ hdrC6x := by
  exact ⟨by decide, by rfl, by decide⟩

/-- A header with a nonempty COMMENT entry for the claim C6 witness. -/
def hdrC6w : Header :=
  ⟨[("FILENAME", HVal.s "w6.fits"), ("COMMENT", HVal.cards ["note"])]⟩

/-- Witness for claim C6 (amended): deleting COMMENT leaves the FILENAME
lookup of a concrete header unchanged. -/
theorem claim_C6_witness :
    hdrGet (delComment hdrC6w) "FILENAME" = hdrGet hdrC6w "FILENAME" :=
  (claim_C6_amended [] ⟨[], []⟩ hdrC6w).2.2.2.2.2.2.2.2.2 "FILENAME" (by decide)
